import Mathlib

/- Formal model of the Spotter drift engine: `physics.py`, `coord_math.py` and the
exit-point computation of `backendforweb.py`, together with theorems checking the
specification's claims about them.  Python floats are modelled by exact rationals
(for the one closed-form constant) and by real numbers (for the interpolation,
atmosphere and quadrature code); `scipy.integrate.quad` is modelled by the
mathematical interval integral, and a returned `{"error": ...}` dictionary is
modelled by the `Except` error case. -/

open scoped Classical
open MeasureTheory

noncomputable section

/-- Model of `physics._calculate_cda`: drag-area constant from the reference
calibration (200 lb jumper, 120 mph terminal velocity, sea-level density),
computed over exact rationals. -/
def _calculate_cda : ℚ :=
  let g : ℚ := 32.174
  let rho_sl : ℚ := 0.002377
  let terminal_velocity_mph : ℚ := 120
  let weight_lb : ℚ := 200
  let terminal_velocity_fps : ℚ := terminal_velocity_mph * 5280 / 3600
  let weight_slug : ℚ := weight_lb / g
  (2 * weight_slug * g) / (rho_sl * terminal_velocity_fps ^ 2)

/-- Model of the module-level constant `physics.CDA = _calculate_cda()`. -/
def CDA : ℝ := (_calculate_cda : ℝ)

/-- Row of the winds-aloft DataFrame consumed by `physics.py`: columns
`altitude_ft`, `wind_speed_mph`, `wind_direction_deg`. -/
structure WindSample where
  altitude_ft : ℝ
  wind_speed_mph : ℝ
  wind_direction_deg : ℝ

/-- Model of `winds_df.sort_values('altitude_ft')`: sort the rows by altitude. -/
def sortByAlt (df : List WindSample) : List WindSample :=
  List.insertionSort (fun a b => a.altitude_ft ≤ b.altitude_ft) df

/-- Model of `scipy.interpolate.interp1d(xs, ys, kind='linear',
fill_value='extrapolate')`: piecewise-linear interpolation over the sample
points, extending the first and last segments linearly outside the sampled
altitude range. -/
def linterp : List ℝ → List ℝ → ℝ → ℝ
  | x0 :: x1 :: xr, y0 :: y1 :: yr, t =>
    if t ≤ x1 ∨ xr = [] then y0 + (y1 - y0) / (x1 - x0) * (t - x0)
    else linterp (x1 :: xr) (y1 :: yr) t
  | _, _, _ => 0

/-- Spacing between consecutive sample altitudes. -/
def hGap (xs : List ℝ) (k : ℕ) : ℝ := xs.getD (k + 1) 0 - xs.getD k 0

/-- Coefficient matrix of the cubic-spline system in second-derivative form:
interior rows are the usual tridiagonal continuity equations, the first and
last rows are the not-a-knot end conditions (continuity of the third
derivative across the second and second-to-last sample altitudes). -/
def splineMatrix (xs : List ℝ) : Matrix (Fin xs.length) (Fin xs.length) ℝ :=
  Matrix.of fun i j =>
    if (i : ℕ) = 0 then
      if (j : ℕ) = 0 then -(hGap xs 1)
      else if (j : ℕ) = 1 then hGap xs 0 + hGap xs 1
      else if (j : ℕ) = 2 then -(hGap xs 0)
      else 0
    else if (i : ℕ) = xs.length - 1 then
      if (j : ℕ) = xs.length - 3 then -(hGap xs (xs.length - 2))
      else if (j : ℕ) = xs.length - 2 then hGap xs (xs.length - 3) + hGap xs (xs.length - 2)
      else if (j : ℕ) = xs.length - 1 then -(hGap xs (xs.length - 3))
      else 0
    else
      if (j : ℕ) = (i : ℕ) - 1 then hGap xs ((i : ℕ) - 1)
      else if (j : ℕ) = (i : ℕ) then 2 * (hGap xs ((i : ℕ) - 1) + hGap xs (i : ℕ))
      else if (j : ℕ) = (i : ℕ) + 1 then hGap xs (i : ℕ)
      else 0

/-- Right-hand side of the cubic-spline system: scaled second divided
differences of the interpolated data at the interior sample altitudes, zero at
the two not-a-knot rows. -/
def splineRHS (xs ys : List ℝ) : Fin xs.length → ℝ := fun i =>
  if (i : ℕ) = 0 ∨ (i : ℕ) = xs.length - 1 then 0
  else
    6 * ((ys.getD ((i : ℕ) + 1) 0 - ys.getD (i : ℕ) 0) / hGap xs (i : ℕ)
      - (ys.getD (i : ℕ) 0 - ys.getD ((i : ℕ) - 1) 0) / hGap xs ((i : ℕ) - 1))

/-- Second derivatives of the cubic spline at the sample altitudes, as the
solution of the spline linear system. -/
def splineM (xs ys : List ℝ) (k : ℕ) : ℝ :=
  if h : k < xs.length then Matrix.mulVec (splineMatrix xs)⁻¹ (splineRHS xs ys) ⟨k, h⟩ else 0

/-- Index of the spline segment whose cubic is evaluated at `t`: the last
segment whose right endpoint is below `t` is extended for extrapolation on the
right, the first segment for extrapolation on the left. -/
def segIdxAux : List ℝ → ℝ → ℕ → ℕ
  | _ :: x1 :: xr, t, k => if t ≤ x1 ∨ xr = [] then k else segIdxAux (x1 :: xr) t (k + 1)
  | _, _, k => k

/-- Segment-location helper for `splineEval`. -/
def segIdx (xs : List ℝ) (t : ℝ) : ℕ := segIdxAux xs t 0

/-- Value at `t` of one cubic segment in second-derivative form. -/
def segCubic (x0 x1 y0 y1 m0 m1 t : ℝ) : ℝ :=
  m0 * (x1 - t) ^ 3 / (6 * (x1 - x0)) + m1 * (t - x0) ^ 3 / (6 * (x1 - x0))
    + (y0 / (x1 - x0) - m0 * (x1 - x0) / 6) * (x1 - t)
    + (y1 / (x1 - x0) - m1 * (x1 - x0) / 6) * (t - x0)

/-- Model of `scipy.interpolate.interp1d(xs, ys, kind='cubic',
fill_value='extrapolate')`: the cubic-spline interpolant, each segment
evaluated in second-derivative form, end segments extended for extrapolation. -/
def splineEval (xs ys : List ℝ) (t : ℝ) : ℝ :=
  segCubic (xs.getD (segIdx xs t) 0) (xs.getD (segIdx xs t + 1) 0)
    (ys.getD (segIdx xs t) 0) (ys.getD (segIdx xs t + 1) 0)
    (splineM xs ys (segIdx xs t)) (splineM xs ys (segIdx xs t + 1)) t

/-- Model of the interpolator construction in `calculate_FF_drift` and
`calculate_canopy_drift`: try the cubic fit first and fall back to the linear
one when the cubic construction fails, which happens exactly when there are
fewer than four sample points or the sorted altitudes are not strictly
increasing. -/
def buildWindFunc (xs ys : List ℝ) : ℝ → ℝ := fun t =>
  if 4 ≤ xs.length ∧ xs.Chain' (· < ·) then splineEval xs ys t else linterp xs ys t

/-- Interpolation-method tag recorded in the result dictionaries. -/
def interpMethod (xs : List ℝ) : String :=
  if 4 ≤ xs.length ∧ xs.Chain' (· < ·) then "cubic" else "linear"

/-- Gravitational constant `g = 32.174 ft/s^2` of `calculate_FF_drift`. -/
def g : ℝ := 32.174

/-- Sea-level air density `rho_sl = 0.002377 slug/ft^3`. -/
def rho_sl : ℝ := 0.002377

/-- Jumper weight `weight_lb = 200`. -/
def weight_lb : ℝ := 200

/-- Jumper mass in slugs, `weight_slug = weight_lb / g`. -/
def weight_slug : ℝ := weight_lb / g

/-- Model of the inner `air_density` of `calculate_FF_drift`: barometric
power-law approximation ρ(a) = ρ_sl·(1 − 6.5756e-6·a)^4.2561. -/
def air_density (altitude_ft : ℝ) : ℝ :=
  rho_sl * (1 - 6.5756e-6 * altitude_ft) ^ (4.2561 : ℝ)

/-- Model of the inner `terminal_velocity` of `calculate_FF_drift`:
v(a) = sqrt(2·m·g / (ρ(a)·CdA)) in ft/s. -/
def terminal_velocity (altitude_ft : ℝ) : ℝ :=
  Real.sqrt ((2 * weight_slug * g) / (air_density altitude_ft * CDA))

/-- Sorted altitude column of the wind DataFrame. -/
def altList (df : List WindSample) : List ℝ :=
  (sortByAlt df).map (fun s => s.altitude_ft)

/-- Eastward wind-component column, `wind_speed_mph * sin(radians(dir))`. -/
def eastList (df : List WindSample) : List ℝ :=
  (sortByAlt df).map (fun s => s.wind_speed_mph * Real.sin (s.wind_direction_deg * Real.pi / 180))

/-- Northward wind-component column, `wind_speed_mph * cos(radians(dir))`. -/
def northList (df : List WindSample) : List ℝ :=
  (sortByAlt df).map (fun s => s.wind_speed_mph * Real.cos (s.wind_direction_deg * Real.pi / 180))

/-- Model of the interpolator `wind_east_func`. -/
def wind_east_func (df : List WindSample) : ℝ → ℝ :=
  buildWindFunc (altList df) (eastList df)

/-- Model of the interpolator `wind_north_func`. -/
def wind_north_func (df : List WindSample) : ℝ → ℝ :=
  buildWindFunc (altList df) (northList df)

/-- Model of the inner `drift_rate_east` of `calculate_FF_drift`: eastward
wind speed in ft/s divided by the (negated, because falling) terminal
velocity. -/
def drift_rate_east (df : List WindSample) (altitude_ft : ℝ) : ℝ :=
  (wind_east_func df altitude_ft * 5280 / 3600) / (-terminal_velocity altitude_ft)

/-- Model of the inner `drift_rate_north` of `calculate_FF_drift`. -/
def drift_rate_north (df : List WindSample) (altitude_ft : ℝ) : ℝ :=
  (wind_north_func df altitude_ft * 5280 / 3600) / (-terminal_velocity altitude_ft)

/-- Model of the inner `time_rate` of `calculate_FF_drift`: seconds per foot
of altitude lost. -/
def time_rate (altitude_ft : ℝ) : ℝ := 1 / terminal_velocity altitude_ft

/-- Freefall eastward drift, `quad(drift_rate_east, 5000, 13500)`. -/
def ffDriftEast (df : List WindSample) : ℝ :=
  ∫ a in (5000 : ℝ)..13500, drift_rate_east df a

/-- Freefall northward drift, `quad(drift_rate_north, 5000, 13500)`. -/
def ffDriftNorth (df : List WindSample) : ℝ :=
  ∫ a in (5000 : ℝ)..13500, drift_rate_north df a

/-- Freefall elapsed time, `quad(time_rate, 5000, 13500)`; it does not depend
on the wind DataFrame. -/
def ffTime : ℝ := ∫ a in (5000 : ℝ)..13500, time_rate a

/-- Model of `np.arctan2(y, x)`: the argument of the point `(x, y)`,
in `(-π, π]`. -/
def arctan2 (y x : ℝ) : ℝ := Complex.arg ⟨x, y⟩

/-- Model of `np.degrees`. -/
def degrees (x : ℝ) : ℝ := x * 180 / Real.pi

/-- Model of the Python float modulo `x % m` (for `m > 0`):
`x - m * floor(x / m)`. -/
def fmod (x m : ℝ) : ℝ := x - m * ↑⌊x / m⌋

/-- Error cases of the drift functions: the returned `{"error": ...}`
dictionaries.  `insufficientData` is the "Insufficient wind data for
interpolation" return; `integrationFailed` is the "Integration failed: ..."
return produced when an exception escapes a `quad` call (in practice the
`ZeroDivisionError` from `1 / descent_rate_fps` when the descent rate is
zero). -/
inductive DriftError where
  | insufficientData
  | integrationFailed
deriving DecidableEq

/-- Result dictionary of `calculate_FF_drift` (diagnostic
`interpolation_breakdown` and the altitude-range string omitted). -/
structure FFResult where
  total_freefall_time_seconds : ℝ
  total_drift_east_feet : ℝ
  total_drift_north_feet : ℝ
  total_drift_distance_feet : ℝ
  drift_direction_degrees : ℝ
  CdA_constant : ℝ
  jumper_weight_lb : ℝ
  exit_altitude_ft : ℝ
  deployment_altitude_ft : ℝ
  interpolation_method : String
  total_data_points_used : ℕ

/-- Model of `physics.calculate_FF_drift`: insufficient-data check, then the
freefall drift and time integrals over the fixed `[5000, 13500]` ft range. -/
def calculate_FF_drift (winds_df : List WindSample) : Except DriftError FFResult :=
  if winds_df.length < 2 then .error .insufficientData
  else
    .ok {
      total_freefall_time_seconds := ffTime
      total_drift_east_feet := ffDriftEast winds_df
      total_drift_north_feet := ffDriftNorth winds_df
      total_drift_distance_feet := Real.sqrt (ffDriftEast winds_df ^ 2 + ffDriftNorth winds_df ^ 2)
      drift_direction_degrees :=
        fmod (degrees (arctan2 (ffDriftEast winds_df) (ffDriftNorth winds_df))) 360
      CdA_constant := CDA
      jumper_weight_lb := weight_lb
      exit_altitude_ft := 13500
      deployment_altitude_ft := 5000
      interpolation_method := interpMethod (altList winds_df)
      total_data_points_used := winds_df.length
    }

/-- Result dictionary of `calculate_canopy_drift` (diagnostic breakdown and
altitude-range string omitted). -/
structure CanopyResult where
  total_canopy_time_seconds : ℝ
  total_drift_east_feet : ℝ
  total_drift_north_feet : ℝ
  total_drift_distance_feet : ℝ
  drift_direction_degrees : ℝ
  canopy_descent_rate_mph : ℝ
  deployment_altitude_ft : ℝ
  landing_altitude_ft : ℝ
  interpolation_method : String
  total_data_points_used : ℕ

/-- Canopy eastward drift, `quad(canopy_drift_rate_east, 0, 5000)` with the
constant descent rate (ft/s) in the denominator. -/
def canopyDriftEast (df : List WindSample) (descent_rate_fps : ℝ) : ℝ :=
  ∫ a in (0 : ℝ)..5000, (wind_east_func df a * 5280 / 3600) / (-descent_rate_fps)

/-- Canopy northward drift, `quad(canopy_drift_rate_north, 0, 5000)`. -/
def canopyDriftNorth (df : List WindSample) (descent_rate_fps : ℝ) : ℝ :=
  ∫ a in (0 : ℝ)..5000, (wind_north_func df a * 5280 / 3600) / (-descent_rate_fps)

/-- Canopy elapsed time, `quad(canopy_time_rate, 0, 5000)` of the constant
integrand `1 / descent_rate_fps`. -/
def canopyTime (descent_rate_fps : ℝ) : ℝ :=
  ∫ _a in (0 : ℝ)..5000, 1 / descent_rate_fps

/-- Model of `physics.calculate_canopy_drift` (default descent rate in the
source is 12.5 mph): insufficient-data check, then the canopy drift and time
integrals over the fixed `[0, 5000]` ft range with the mph→ft/s-converted
descent rate.  A zero descent rate makes the time integrand `1 /
descent_rate_fps` raise `ZeroDivisionError` inside `quad`, which the source
catches and turns into the "Integration failed" error return. -/
def calculate_canopy_drift (winds_df : List WindSample) (canopy_descent_rate_mph : ℝ) :
    Except DriftError CanopyResult :=
  if winds_df.length < 2 then .error .insufficientData
  else if canopy_descent_rate_mph * 5280 / 3600 = 0 then .error .integrationFailed
  else
    .ok {
      total_canopy_time_seconds := canopyTime (canopy_descent_rate_mph * 5280 / 3600)
      total_drift_east_feet := canopyDriftEast winds_df (canopy_descent_rate_mph * 5280 / 3600)
      total_drift_north_feet := canopyDriftNorth winds_df (canopy_descent_rate_mph * 5280 / 3600)
      total_drift_distance_feet :=
        Real.sqrt (canopyDriftEast winds_df (canopy_descent_rate_mph * 5280 / 3600) ^ 2
          + canopyDriftNorth winds_df (canopy_descent_rate_mph * 5280 / 3600) ^ 2)
      drift_direction_degrees :=
        fmod (degrees (arctan2 (canopyDriftEast winds_df (canopy_descent_rate_mph * 5280 / 3600))
          (canopyDriftNorth winds_df (canopy_descent_rate_mph * 5280 / 3600)))) 360
      canopy_descent_rate_mph := canopy_descent_rate_mph
      deployment_altitude_ft := 5000
      landing_altitude_ft := 0
      interpolation_method := interpMethod (altList winds_df)
      total_data_points_used := winds_df.length
    }

/-- Combined result dictionary of `calculate_total_drift`. -/
structure TotalResult where
  freefall_results : FFResult
  canopy_results : CanopyResult
  total_drift_east_feet : ℝ
  total_drift_north_feet : ℝ
  total_drift_distance_feet : ℝ
  total_drift_direction_degrees : ℝ
  total_jump_time_seconds : ℝ

/-- Combination step of `calculate_total_drift`: propagate the first phase
error, otherwise sum the two phase vectors and times. -/
def combineDrift (ff : Except DriftError FFResult) (c : Except DriftError CanopyResult) :
    Except DriftError TotalResult :=
  match ff with
  | .error e => .error e
  | .ok ffres =>
    match c with
    | .error e => .error e
    | .ok cres =>
      .ok {
        freefall_results := ffres
        canopy_results := cres
        total_drift_east_feet := ffres.total_drift_east_feet + cres.total_drift_east_feet
        total_drift_north_feet := ffres.total_drift_north_feet + cres.total_drift_north_feet
        total_drift_distance_feet :=
          Real.sqrt ((ffres.total_drift_east_feet + cres.total_drift_east_feet) ^ 2
            + (ffres.total_drift_north_feet + cres.total_drift_north_feet) ^ 2)
        total_drift_direction_degrees :=
          fmod (degrees (arctan2 (ffres.total_drift_east_feet + cres.total_drift_east_feet)
            (ffres.total_drift_north_feet + cres.total_drift_north_feet))) 360
        total_jump_time_seconds :=
          ffres.total_freefall_time_seconds + cres.total_canopy_time_seconds
      }

/-- Model of `physics.calculate_total_drift` (default descent rate in the
source is 8.5 mph). -/
def calculate_total_drift (winds_df : List WindSample) (canopy_descent_rate_mph : ℝ) :
    Except DriftError TotalResult :=
  combineDrift (calculate_FF_drift winds_df) (calculate_canopy_drift winds_df canopy_descent_rate_mph)

/-- Model of `coord_math.feet_to_lat_long_offset`: drift in feet to latitude
and longitude degree offsets, `(lat_offset, long_offset)`. -/
def feet_to_lat_long_offset (east_feet north_feet reference_lat : ℝ) : ℝ × ℝ :=
  let feet_per_degree_lat : ℝ := 364000
  let feet_per_degree_long : ℝ := 364000 * Real.cos (reference_lat * Real.pi / 180)
  (north_feet / feet_per_degree_lat, east_feet / feet_per_degree_long)

/-- Model of the exit-point computation in `backendforweb.calculate_jump`
(lines 92–94): `ideal_exit = target - offset` componentwise, with the offset
computed at the target latitude. -/
def ideal_exit_point (target_lat target_lon total_east_drift total_north_drift : ℝ) : ℝ × ℝ :=
  (target_lat - (feet_to_lat_long_offset total_east_drift total_north_drift target_lat).1,
   target_lon - (feet_to_lat_long_offset total_east_drift total_north_drift target_lat).2)

/-- Model of `winds_df.copy()`: value semantics, an independent copy of the
caller's DataFrame. -/
def DataFrameCopy (df : List WindSample) : List WindSample := df

/-- State-passing model of `calculate_FF_drift`: alongside the result it
returns the caller's DataFrame as the function leaves it.  The source copies
the input on entry (`ff_winds = winds_df.copy()`) and applies the in-place
operations (sort, component-column assignments) to the copy only, so the
caller-visible state is the unchanged input. -/
def calculate_FF_drift_frame (winds_df : List WindSample) :
    Except DriftError FFResult × List WindSample :=
  (calculate_FF_drift (DataFrameCopy winds_df), winds_df)

/-- State-passing model of `calculate_canopy_drift`; the source copies the
input on entry (`canopy_winds = winds_df.copy()`) and mutates only the copy. -/
def calculate_canopy_drift_frame (winds_df : List WindSample) (canopy_descent_rate_mph : ℝ) :
    Except DriftError CanopyResult × List WindSample :=
  (calculate_canopy_drift (DataFrameCopy winds_df) canopy_descent_rate_mph, winds_df)

/-- State-passing model of `calculate_total_drift`: the same DataFrame is
threaded through both phase calls. -/
def calculate_total_drift_frame (winds_df : List WindSample) (canopy_descent_rate_mph : ℝ) :
    Except DriftError TotalResult × List WindSample :=
  let s1 := calculate_FF_drift_frame winds_df
  let s2 := calculate_canopy_drift_frame s1.2 canopy_descent_rate_mph
  (combineDrift s1.1 s2.1, s2.2)

/-! Helper lemmas: the interpolation operators are homogeneous in the
interpolated data, and sorting commutes with altitude-preserving row maps. -/

lemma getD_map_mul (c : ℝ) : ∀ (ys : List ℝ) (k : ℕ),
    (ys.map (fun y => c * y)).getD k 0 = c * ys.getD k 0
  | [], k => by simp
  | y :: ys, 0 => by simp
  | y :: ys, k + 1 => by
    simpa using getD_map_mul c ys k

lemma linterp_map_mul (c : ℝ) : ∀ (xs ys : List ℝ) (t : ℝ),
    linterp xs (ys.map (fun y => c * y)) t = c * linterp xs ys t
  | x0 :: x1 :: xr, y0 :: y1 :: yr, t => by
    simp only [List.map_cons, linterp]
    split_ifs
    · ring
    · exact linterp_map_mul c (x1 :: xr) (y1 :: yr) t
  | [], ys, t => by cases ys <;> simp [linterp]
  | [x0], ys, t => by cases ys <;> simp [linterp]
  | x0 :: x1 :: xr, [], t => by simp [linterp]
  | x0 :: x1 :: xr, [y0], t => by simp [linterp]

lemma segCubic_smul (c x0 x1 y0 y1 m0 m1 t : ℝ) :
    segCubic x0 x1 (c * y0) (c * y1) (c * m0) (c * m1) t = c * segCubic x0 x1 y0 y1 m0 m1 t := by
  simp only [segCubic]
  ring

lemma splineRHS_map_mul (c : ℝ) (xs ys : List ℝ) :
    splineRHS xs (ys.map (fun y => c * y)) = c • splineRHS xs ys := by
  funext i
  simp only [splineRHS, Pi.smul_apply, smul_eq_mul]
  split_ifs
  · ring
  · simp only [getD_map_mul]
    ring

lemma splineM_map_mul (c : ℝ) (xs ys : List ℝ) (k : ℕ) :
    splineM xs (ys.map (fun y => c * y)) k = c * splineM xs ys k := by
  simp only [splineM]
  split
  · rw [splineRHS_map_mul, Matrix.mulVec_smul]
    simp
  · ring

lemma splineEval_map_mul (c : ℝ) (xs ys : List ℝ) (t : ℝ) :
    splineEval xs (ys.map (fun y => c * y)) t = c * splineEval xs ys t := by
  simp only [splineEval, getD_map_mul, splineM_map_mul, segCubic_smul]

lemma buildWindFunc_map_mul (c : ℝ) (xs ys : List ℝ) (t : ℝ) :
    buildWindFunc xs (ys.map (fun y => c * y)) t = c * buildWindFunc xs ys t := by
  simp only [buildWindFunc]
  split_ifs
  · exact splineEval_map_mul c xs ys t
  · exact linterp_map_mul c xs ys t

lemma buildWindFunc_zero {ys : List ℝ} (h : ∀ y ∈ ys, y = 0) (xs : List ℝ) (t : ℝ) :
    buildWindFunc xs ys t = 0 := by
  have hmap : ys.map (fun y => (0 : ℝ) * y) = ys := by
    induction ys with
    | nil => rfl
    | cons a l ih =>
      have ha := h a (by simp)
      have hl := ih (fun y hy => h y (by simp [hy]))
      rw [List.map_cons, hl, ha]
      norm_num
  calc buildWindFunc xs ys t = buildWindFunc xs (ys.map (fun y => (0 : ℝ) * y)) t := by
        rw [hmap]
    _ = 0 * buildWindFunc xs ys t := buildWindFunc_map_mul 0 xs ys t
    _ = 0 := zero_mul _

lemma orderedInsert_map (f : WindSample → WindSample)
    (hf : ∀ s, (f s).altitude_ft = s.altitude_ft) (s : WindSample) :
    ∀ l : List WindSample,
      List.orderedInsert (fun a b => a.altitude_ft ≤ b.altitude_ft) (f s) (l.map f)
        = (List.orderedInsert (fun a b => a.altitude_ft ≤ b.altitude_ft) s l).map f
  | [] => rfl
  | a :: l => by
    simp only [List.map_cons, List.orderedInsert, hf]
    split_ifs
    · simp
    · simp [orderedInsert_map f hf s l]

lemma sortByAlt_map (f : WindSample → WindSample)
    (hf : ∀ s, (f s).altitude_ft = s.altitude_ft) :
    ∀ df : List WindSample, sortByAlt (df.map f) = (sortByAlt df).map f
  | [] => rfl
  | a :: l => by
    simp only [List.map_cons, sortByAlt, List.insertionSort]
    rw [show List.insertionSort (fun a b => a.altitude_ft ≤ b.altitude_ft) (l.map f)
          = sortByAlt (l.map f) from rfl,
      sortByAlt_map f hf l]
    exact orderedInsert_map f hf a _

/-! ### Claim C1 -/

/-- C1 counterexample: the drag-area constant computed by
`_calculate_cda` is not approximately 8.85 ft²; it differs from 8.85 by more
than 3. -/
theorem c1_cda_not_8_85 : 3 < |_calculate_cda - 8.85| := by
  exact lt_abs.mpr (Or.inr (by norm_num [_calculate_cda]))

/-- C1 (amended): `_calculate_cda` computes CdA by the closed-form force
balance `2·m·g / (ρ_sl·v_ref²)` with the mass in slugs and the reference
velocity converted to ft/s, and the resulting value is approximately 5.43 ft²
(not the ≈8.85 ft² stated in the source comment): it is within 0.001 of 5.4326,
and the module constant `CDA` is that value. -/
theorem c1_cda_value :
    _calculate_cda = (2 * (200 / 32.174) * 32.174) / (0.002377 * (120 * 5280 / 3600) ^ 2)
      ∧ |_calculate_cda - 5.4326| < 0.001 ∧ CDA = (_calculate_cda : ℝ) := by
  refine ⟨by norm_num [_calculate_cda],
    abs_lt.mpr ⟨by norm_num [_calculate_cda], by norm_num [_calculate_cda]⟩, rfl⟩

/-! ### Extraction lemmas for the drift functions -/

lemma rate_fps_ne_zero {r : ℝ} (hr : r ≠ 0) : r * 5280 / 3600 ≠ 0 := by
  simp [div_eq_zero_iff, mul_eq_zero, hr]

lemma FF_ok (df : List WindSample) (h : 2 ≤ df.length) :
    calculate_FF_drift df = .ok {
      total_freefall_time_seconds := ffTime
      total_drift_east_feet := ffDriftEast df
      total_drift_north_feet := ffDriftNorth df
      total_drift_distance_feet := Real.sqrt (ffDriftEast df ^ 2 + ffDriftNorth df ^ 2)
      drift_direction_degrees := fmod (degrees (arctan2 (ffDriftEast df) (ffDriftNorth df))) 360
      CdA_constant := CDA
      jumper_weight_lb := weight_lb
      exit_altitude_ft := 13500
      deployment_altitude_ft := 5000
      interpolation_method := interpMethod (altList df)
      total_data_points_used := df.length } := by
  rw [calculate_FF_drift, if_neg (by omega)]

lemma canopy_ok (df : List WindSample) (r : ℝ) (h : 2 ≤ df.length)
    (hr : r * 5280 / 3600 ≠ 0) :
    calculate_canopy_drift df r = .ok {
      total_canopy_time_seconds := canopyTime (r * 5280 / 3600)
      total_drift_east_feet := canopyDriftEast df (r * 5280 / 3600)
      total_drift_north_feet := canopyDriftNorth df (r * 5280 / 3600)
      total_drift_distance_feet :=
        Real.sqrt (canopyDriftEast df (r * 5280 / 3600) ^ 2
          + canopyDriftNorth df (r * 5280 / 3600) ^ 2)
      drift_direction_degrees :=
        fmod (degrees (arctan2 (canopyDriftEast df (r * 5280 / 3600))
          (canopyDriftNorth df (r * 5280 / 3600)))) 360
      canopy_descent_rate_mph := r
      deployment_altitude_ft := 5000
      landing_altitude_ft := 0
      interpolation_method := interpMethod (altList df)
      total_data_points_used := df.length } := by
  rw [calculate_canopy_drift, if_neg (by omega), if_neg hr]

lemma canopyTime_eq (r_fps : ℝ) : canopyTime r_fps = 5000 * (1 / r_fps) := by
  rw [canopyTime, intervalIntegral.integral_const]
  norm_num

/-- Sample profile used by concrete witnesses: the end-to-end test profile
`{(0 ft, 10 mph, 90°), (15000 ft, 10 mph, 90°)}`, constant 10 mph wind from
due east. -/
def exProfile : List WindSample := [⟨0, 10, 90⟩, ⟨15000, 10, 90⟩]

/-- Degenerate profile with two rows sharing one single distinct altitude. -/
def dupProfile : List WindSample := [⟨100, 5, 0⟩, ⟨100, 7, 90⟩]

/-- One-row profile. -/
def oneProfile : List WindSample := [⟨1000, 12, 45⟩]

/-! ### Claim C3 -/

/-- C3 counterexample: a profile with two rows but only one distinct altitude
is not rejected with the insufficient-data error — the row-count check
`len(winds_df) < 2` passes and all three drift functions return an ordinary
result. -/
theorem c3_one_distinct_altitude_not_rejected :
    (∀ s ∈ dupProfile, s.altitude_ft = 100) ∧
      (∃ ff, calculate_FF_drift dupProfile = .ok ff) ∧
      (∃ c, calculate_canopy_drift dupProfile 12.5 = .ok c) ∧
      (∃ t, calculate_total_drift dupProfile 12.5 = .ok t) := by
  have hff := FF_ok dupProfile (by simp [dupProfile])
  have hc := canopy_ok dupProfile 12.5 (by simp [dupProfile]) (by norm_num)
  have ht : ∃ t, calculate_total_drift dupProfile 12.5 = .ok t := by
    rw [calculate_total_drift, hff, hc]
    exact ⟨_, rfl⟩
  refine ⟨?_, ⟨_, hff⟩, ⟨_, hc⟩, ht⟩
  intro s hs
  simp only [dupProfile, List.mem_cons, List.not_mem_nil, or_false] at hs
  rcases hs with h | h <;> simp [h]

/-- C3 (amended): for every profile with fewer than 2 rows (the check in the
source counts rows, not distinct altitudes), `calculate_FF_drift` and
`calculate_canopy_drift` return the insufficient-data error — an error value
carrying no partial drift-phase result — and `calculate_total_drift`
propagates that single error instead of a combined result. -/
theorem c3_insufficient_rows (df : List WindSample) (r : ℝ) (h : df.length < 2) :
    calculate_FF_drift df = .error .insufficientData ∧
      calculate_canopy_drift df r = .error .insufficientData ∧
      calculate_total_drift df r = .error .insufficientData := by
  refine ⟨?_, ?_, ?_⟩ <;>
    simp [calculate_FF_drift, calculate_canopy_drift, calculate_total_drift, combineDrift, h]

/-- C3 witness: the amended claim at the one-row profile. -/
theorem c3_insufficient_rows_witness :
    calculate_FF_drift oneProfile = .error .insufficientData ∧
      calculate_canopy_drift oneProfile 12.5 = .error .insufficientData ∧
      calculate_total_drift oneProfile 12.5 = .error .insufficientData :=
  c3_insufficient_rows oneProfile 12.5 (by simp [oneProfile])

/-! ### Claim C4 -/

/-- C4 counterexample: a negative canopy descent rate (−8.5 mph) is not
rejected with any configuration error — `calculate_canopy_drift` returns an
ordinary drift result for it. -/
theorem c4_negative_rate_not_rejected :
    ∃ res, calculate_canopy_drift exProfile (-8.5) = .ok res :=
  ⟨_, canopy_ok exProfile (-8.5) (by simp [exProfile]) (by norm_num)⟩

/-- C4 (amended): `calculate_canopy_drift` does not validate the sign of the
descent rate.  A rate of exactly zero produces the integration-failure error
(the `ZeroDivisionError` raised by the time integrand inside `quad`), and
every nonzero rate — negative ones included — is converted from mph to ft/s
and integrated, as witnessed by the elapsed-time field `5000 / (rate·5280/3600)`. -/
theorem c4_rate_handling (df : List WindSample) (r : ℝ) (h : 2 ≤ df.length) :
    (r = 0 → calculate_canopy_drift df r = .error .integrationFailed) ∧
      (r ≠ 0 → ∃ res, calculate_canopy_drift df r = .ok res ∧
        res.total_canopy_time_seconds = 5000 / (r * 5280 / 3600)) := by
  constructor
  · intro h0
    subst h0
    rw [calculate_canopy_drift, if_neg (by omega)]
    norm_num
  · intro hr
    refine ⟨_, canopy_ok df r h (rate_fps_ne_zero hr), ?_⟩
    show canopyTime (r * 5280 / 3600) = _
    rw [canopyTime_eq]
    ring

/-- C4 witness: the amended claim at a concrete profile and the negative rate
−8.5 mph. -/
theorem c4_rate_handling_witness :
    ∃ res, calculate_canopy_drift exProfile (-8.5) = .ok res ∧
      res.total_canopy_time_seconds = 5000 / ((-8.5) * 5280 / 3600) :=
  (c4_rate_handling exProfile (-8.5) (by simp [exProfile])).2 (by norm_num)

/-! ### Claim C5 -/

lemma FF_ok_fields {df : List WindSample} {ff : FFResult}
    (h : calculate_FF_drift df = .ok ff) :
    ff.exit_altitude_ft = 13500 ∧ ff.deployment_altitude_ft = 5000 := by
  rw [calculate_FF_drift] at h
  split at h
  · exact absurd h (by simp)
  · cases h
    exact ⟨rfl, rfl⟩

lemma canopy_ok_fields {df : List WindSample} {r : ℝ} {c : CanopyResult}
    (h : calculate_canopy_drift df r = .ok c) :
    c.deployment_altitude_ft = 5000 ∧ c.landing_altitude_ft = 0 := by
  rw [calculate_canopy_drift] at h
  split at h
  · exact absurd h (by simp)
  · split at h
    · exact absurd h (by simp)
    · cases h
      exact ⟨rfl, rfl⟩

/-- Formalization of C5's overridability: some two invocations of the drift
computation produce phase results that record different altitude boundaries. -/
def BoundariesOverridable : Prop :=
  (∃ df₁ df₂ ff₁ ff₂, calculate_FF_drift df₁ = .ok ff₁ ∧ calculate_FF_drift df₂ = .ok ff₂ ∧
    (ff₁.exit_altitude_ft ≠ ff₂.exit_altitude_ft ∨
      ff₁.deployment_altitude_ft ≠ ff₂.deployment_altitude_ft)) ∨
  (∃ df₁ r₁ df₂ r₂ c₁ c₂, calculate_canopy_drift df₁ r₁ = .ok c₁ ∧
    calculate_canopy_drift df₂ r₂ = .ok c₂ ∧
    (c₁.deployment_altitude_ft ≠ c₂.deployment_altitude_ft ∨
      c₁.landing_altitude_ft ≠ c₂.landing_altitude_ft))

/-- C5 counterexample: no caller input can change any recorded altitude
boundary — the boundaries are local constants of the drift functions, which
take no boundary parameter. -/
theorem c5_boundaries_not_overridable : ¬ BoundariesOverridable := by
  rintro (⟨df₁, df₂, ff₁, ff₂, h₁, h₂, hne⟩ | ⟨df₁, r₁, df₂, r₂, c₁, c₂, h₁, h₂, hne⟩)
  · obtain ⟨e₁, d₁⟩ := FF_ok_fields h₁
    obtain ⟨e₂, d₂⟩ := FF_ok_fields h₂
    rcases hne with hne | hne <;> simp_all
  · obtain ⟨e₁, d₁⟩ := canopy_ok_fields h₁
    obtain ⟨e₂, d₂⟩ := canopy_ok_fields h₂
    rcases hne with hne | hne <;> simp_all

/-- C5 (amended): the drift engine uses the fixed altitude boundaries
13,500 ft (exit), 5,000 ft (deployment) and 0 ft (landing) on every
invocation; they are hard-coded locals and no caller parameter can override
them (only the canopy descent rate is caller-supplied). -/
theorem c5_default_boundaries (df : List WindSample) (r : ℝ) (h : 2 ≤ df.length)
    (hr : r ≠ 0) :
    ∃ ff c, calculate_FF_drift df = .ok ff ∧ calculate_canopy_drift df r = .ok c ∧
      ff.exit_altitude_ft = 13500 ∧ ff.deployment_altitude_ft = 5000 ∧
      c.deployment_altitude_ft = 5000 ∧ c.landing_altitude_ft = 0 :=
  ⟨_, _, FF_ok df h, canopy_ok df r h (rate_fps_ne_zero hr), rfl, rfl, rfl, rfl⟩

/-- C5 witness: the amended claim at a concrete profile and rate. -/
theorem c5_default_boundaries_witness :
    ∃ ff c, calculate_FF_drift exProfile = .ok ff ∧
      calculate_canopy_drift exProfile 8.5 = .ok c ∧
      ff.exit_altitude_ft = 13500 ∧ ff.deployment_altitude_ft = 5000 ∧
      c.deployment_altitude_ft = 5000 ∧ c.landing_altitude_ft = 0 :=
  c5_default_boundaries exProfile 8.5 (by simp [exProfile]) (by norm_num)

/-! ### Claim C6 -/

/-- C6: for every profile accepted by the row check and every positive canopy
descent rate, the canopy elapsed time equals
`(deployment_altitude − landing_altitude) / descent_rate_fps` exactly, with
the boundaries taken from the result itself; the formula does not involve the
wind samples. -/
theorem c6_canopy_time (df : List WindSample) (r : ℝ) (h : 2 ≤ df.length) (hr : 0 < r) :
    ∃ res, calculate_canopy_drift df r = .ok res ∧
      res.total_canopy_time_seconds =
        (res.deployment_altitude_ft - res.landing_altitude_ft) / (r * 5280 / 3600) := by
  refine ⟨_, canopy_ok df r h (rate_fps_ne_zero (ne_of_gt hr)), ?_⟩
  show canopyTime (r * 5280 / 3600) = ((5000 : ℝ) - 0) / (r * 5280 / 3600)
  rw [canopyTime_eq]
  ring

/-- C6 witness: the canopy time at the concrete two-row profile and the
source's default 12.5 mph rate. -/
theorem c6_canopy_time_witness :
    ∃ res, calculate_canopy_drift exProfile 12.5 = .ok res ∧
      res.total_canopy_time_seconds =
        (res.deployment_altitude_ft - res.landing_altitude_ft) / (12.5 * 5280 / 3600) :=
  c6_canopy_time exProfile 12.5 (by simp [exProfile]) (by norm_num)

/-! ### Claim C7 -/

lemma eastList_zero {df : List WindSample} (h : ∀ s ∈ df, s.wind_speed_mph = 0) :
    ∀ y ∈ eastList df, y = 0 := by
  intro y hy
  simp only [eastList, List.mem_map] at hy
  obtain ⟨s, hs, rfl⟩ := hy
  rw [h s ((List.perm_insertionSort _ df).mem_iff.mp hs), zero_mul]

lemma northList_zero {df : List WindSample} (h : ∀ s ∈ df, s.wind_speed_mph = 0) :
    ∀ y ∈ northList df, y = 0 := by
  intro y hy
  simp only [northList, List.mem_map] at hy
  obtain ⟨s, hs, rfl⟩ := hy
  rw [h s ((List.perm_insertionSort _ df).mem_iff.mp hs), zero_mul]

lemma ffDriftEast_zero_wind {df : List WindSample} (h : ∀ s ∈ df, s.wind_speed_mph = 0) :
    ffDriftEast df = 0 := by
  have hz : ∀ a, drift_rate_east df a = 0 := by
    intro a
    rw [drift_rate_east, wind_east_func, buildWindFunc_zero (eastList_zero h)]
    norm_num
  simp only [ffDriftEast, hz, intervalIntegral.integral_zero]

lemma ffDriftNorth_zero_wind {df : List WindSample} (h : ∀ s ∈ df, s.wind_speed_mph = 0) :
    ffDriftNorth df = 0 := by
  have hz : ∀ a, drift_rate_north df a = 0 := by
    intro a
    rw [drift_rate_north, wind_north_func, buildWindFunc_zero (northList_zero h)]
    norm_num
  simp only [ffDriftNorth, hz, intervalIntegral.integral_zero]

lemma canopyDriftEast_zero_wind {df : List WindSample} (h : ∀ s ∈ df, s.wind_speed_mph = 0)
    (r_fps : ℝ) : canopyDriftEast df r_fps = 0 := by
  have hz : ∀ a : ℝ, (wind_east_func df a * 5280 / 3600) / (-r_fps) = 0 := by
    intro a
    rw [wind_east_func, buildWindFunc_zero (eastList_zero h)]
    norm_num
  simp only [canopyDriftEast, hz, intervalIntegral.integral_zero]

lemma canopyDriftNorth_zero_wind {df : List WindSample} (h : ∀ s ∈ df, s.wind_speed_mph = 0)
    (r_fps : ℝ) : canopyDriftNorth df r_fps = 0 := by
  have hz : ∀ a : ℝ, (wind_north_func df a * 5280 / 3600) / (-r_fps) = 0 := by
    intro a
    rw [wind_north_func, buildWindFunc_zero (northList_zero h)]
    norm_num
  simp only [canopyDriftNorth, hz, intervalIntegral.integral_zero]

/-- Profile with zero wind speed at both altitudes. -/
def zeroProfile : List WindSample := [⟨0, 0, 0⟩, ⟨15000, 0, 90⟩]

/-- C7: for every profile accepted by the row check whose samples all have
zero wind speed, both phases return zero east and north drift; and the
elapsed time of each phase is the same as for any other accepted profile
(the freefall time integrand uses only the terminal-velocity model and the
canopy time only the descent rate, so neither depends on the wind data). -/
theorem c7_zero_wind (df df' : List WindSample) (r : ℝ) (h : 2 ≤ df.length)
    (hz : ∀ s ∈ df, s.wind_speed_mph = 0) (hr : 0 < r) (h' : 2 ≤ df'.length) :
    ∃ ff c ff' c',
      calculate_FF_drift df = .ok ff ∧ calculate_canopy_drift df r = .ok c ∧
      calculate_FF_drift df' = .ok ff' ∧ calculate_canopy_drift df' r = .ok c' ∧
      ff.total_drift_east_feet = 0 ∧ ff.total_drift_north_feet = 0 ∧
      c.total_drift_east_feet = 0 ∧ c.total_drift_north_feet = 0 ∧
      ff.total_freefall_time_seconds = ff'.total_freefall_time_seconds ∧
      c.total_canopy_time_seconds = c'.total_canopy_time_seconds := by
  refine ⟨_, _, _, _, FF_ok df h, canopy_ok df r h (rate_fps_ne_zero (ne_of_gt hr)),
    FF_ok df' h', canopy_ok df' r h' (rate_fps_ne_zero (ne_of_gt hr)),
    ffDriftEast_zero_wind hz, ffDriftNorth_zero_wind hz,
    canopyDriftEast_zero_wind hz _, canopyDriftNorth_zero_wind hz _, rfl, rfl⟩

/-- C7 witness: the zero-wind profile against the nonzero-wind test profile. -/
theorem c7_zero_wind_witness :
    ∃ ff c ff' c',
      calculate_FF_drift zeroProfile = .ok ff ∧
      calculate_canopy_drift zeroProfile 12.5 = .ok c ∧
      calculate_FF_drift exProfile = .ok ff' ∧
      calculate_canopy_drift exProfile 12.5 = .ok c' ∧
      ff.total_drift_east_feet = 0 ∧ ff.total_drift_north_feet = 0 ∧
      c.total_drift_east_feet = 0 ∧ c.total_drift_north_feet = 0 ∧
      ff.total_freefall_time_seconds = ff'.total_freefall_time_seconds ∧
      c.total_canopy_time_seconds = c'.total_canopy_time_seconds := by
  refine c7_zero_wind zeroProfile exProfile 12.5 (by simp [zeroProfile]) ?_ (by norm_num)
    (by simp [exProfile])
  intro s hs
  simp only [zeroProfile, List.mem_cons, List.not_mem_nil, or_false] at hs
  rcases hs with h | h <;> simp [h]

/-! ### Claim C8 -/

/-- Row map doubling the wind speed while keeping altitude and direction. -/
def doubleSpeed (s : WindSample) : WindSample :=
  ⟨s.altitude_ft, 2 * s.wind_speed_mph, s.wind_direction_deg⟩

lemma altList_doubleSpeed (df : List WindSample) :
    altList (df.map doubleSpeed) = altList df := by
  rw [altList, sortByAlt_map doubleSpeed (fun s => rfl) df, List.map_map, altList]
  rfl

lemma eastList_doubleSpeed (df : List WindSample) :
    eastList (df.map doubleSpeed) = (eastList df).map (fun y => 2 * y) := by
  rw [eastList, sortByAlt_map doubleSpeed (fun s => rfl) df, List.map_map, eastList,
    List.map_map]
  refine List.map_congr_left (fun s _ => ?_)
  show (doubleSpeed s).wind_speed_mph * Real.sin ((doubleSpeed s).wind_direction_deg * Real.pi / 180)
    = 2 * (s.wind_speed_mph * Real.sin (s.wind_direction_deg * Real.pi / 180))
  rw [doubleSpeed]
  ring

lemma northList_doubleSpeed (df : List WindSample) :
    northList (df.map doubleSpeed) = (northList df).map (fun y => 2 * y) := by
  rw [northList, sortByAlt_map doubleSpeed (fun s => rfl) df, List.map_map, northList,
    List.map_map]
  refine List.map_congr_left (fun s _ => ?_)
  show (doubleSpeed s).wind_speed_mph * Real.cos ((doubleSpeed s).wind_direction_deg * Real.pi / 180)
    = 2 * (s.wind_speed_mph * Real.cos (s.wind_direction_deg * Real.pi / 180))
  rw [doubleSpeed]
  ring

lemma wind_east_func_doubleSpeed (df : List WindSample) (a : ℝ) :
    wind_east_func (df.map doubleSpeed) a = 2 * wind_east_func df a := by
  rw [wind_east_func, altList_doubleSpeed, eastList_doubleSpeed, buildWindFunc_map_mul,
    wind_east_func]

lemma wind_north_func_doubleSpeed (df : List WindSample) (a : ℝ) :
    wind_north_func (df.map doubleSpeed) a = 2 * wind_north_func df a := by
  rw [wind_north_func, altList_doubleSpeed, northList_doubleSpeed, buildWindFunc_map_mul,
    wind_north_func]

lemma ffDriftEast_doubleSpeed (df : List WindSample) :
    ffDriftEast (df.map doubleSpeed) = 2 * ffDriftEast df := by
  rw [ffDriftEast, ffDriftEast, ← intervalIntegral.integral_const_mul]
  refine intervalIntegral.integral_congr (fun a _ => ?_)
  rw [drift_rate_east, drift_rate_east, wind_east_func_doubleSpeed]
  ring

lemma ffDriftNorth_doubleSpeed (df : List WindSample) :
    ffDriftNorth (df.map doubleSpeed) = 2 * ffDriftNorth df := by
  rw [ffDriftNorth, ffDriftNorth, ← intervalIntegral.integral_const_mul]
  refine intervalIntegral.integral_congr (fun a _ => ?_)
  rw [drift_rate_north, drift_rate_north, wind_north_func_doubleSpeed]
  ring

lemma canopyDriftEast_doubleSpeed (df : List WindSample) (r_fps : ℝ) :
    canopyDriftEast (df.map doubleSpeed) r_fps = 2 * canopyDriftEast df r_fps := by
  rw [canopyDriftEast, canopyDriftEast, ← intervalIntegral.integral_const_mul]
  refine intervalIntegral.integral_congr (fun a _ => ?_)
  rw [wind_east_func_doubleSpeed]
  ring

lemma canopyDriftNorth_doubleSpeed (df : List WindSample) (r_fps : ℝ) :
    canopyDriftNorth (df.map doubleSpeed) r_fps = 2 * canopyDriftNorth df r_fps := by
  rw [canopyDriftNorth, canopyDriftNorth, ← intervalIntegral.integral_const_mul]
  refine intervalIntegral.integral_congr (fun a _ => ?_)
  rw [wind_north_func_doubleSpeed]
  ring

/-- C8: doubling the wind speed of every sample while keeping every direction
fixed doubles the east and north drift returned for each phase — the drift
integrals are linear in the wind field, and every interpolation path (cubic
spline or linear fallback) is linear in the interpolated component data. -/
theorem c8_linearity (df : List WindSample) (r : ℝ) (h : 2 ≤ df.length) (hr : 0 < r) :
    ∃ ff ff₂ c c₂,
      calculate_FF_drift df = .ok ff ∧
      calculate_FF_drift (df.map doubleSpeed) = .ok ff₂ ∧
      calculate_canopy_drift df r = .ok c ∧
      calculate_canopy_drift (df.map doubleSpeed) r = .ok c₂ ∧
      ff₂.total_drift_east_feet = 2 * ff.total_drift_east_feet ∧
      ff₂.total_drift_north_feet = 2 * ff.total_drift_north_feet ∧
      c₂.total_drift_east_feet = 2 * c.total_drift_east_feet ∧
      c₂.total_drift_north_feet = 2 * c.total_drift_north_feet := by
  have hlen : 2 ≤ (df.map doubleSpeed).length := by simpa using h
  refine ⟨_, _, _, _, FF_ok df h, FF_ok _ hlen,
    canopy_ok df r h (rate_fps_ne_zero (ne_of_gt hr)),
    canopy_ok _ r hlen (rate_fps_ne_zero (ne_of_gt hr)),
    ffDriftEast_doubleSpeed df, ffDriftNorth_doubleSpeed df,
    canopyDriftEast_doubleSpeed df _, canopyDriftNorth_doubleSpeed df _⟩

/-- C8 witness: the doubling law at the concrete two-row profile and the
default 12.5 mph canopy rate. -/
theorem c8_linearity_witness :
    ∃ ff ff₂ c c₂,
      calculate_FF_drift exProfile = .ok ff ∧
      calculate_FF_drift (exProfile.map doubleSpeed) = .ok ff₂ ∧
      calculate_canopy_drift exProfile 12.5 = .ok c ∧
      calculate_canopy_drift (exProfile.map doubleSpeed) 12.5 = .ok c₂ ∧
      ff₂.total_drift_east_feet = 2 * ff.total_drift_east_feet ∧
      ff₂.total_drift_north_feet = 2 * ff.total_drift_north_feet ∧
      c₂.total_drift_east_feet = 2 * c.total_drift_east_feet ∧
      c₂.total_drift_north_feet = 2 * c.total_drift_north_feet :=
  c8_linearity exProfile 12.5 (by simp [exProfile]) (by norm_num)

/-! ### Claim C2 -/

lemma air_density_pos {a : ℝ} (_h0 : 0 ≤ a) (h1 : a ≤ 13500) : 0 < air_density a := by
  rw [air_density]
  have hbase : 0 < 1 - 6.5756e-6 * a := by nlinarith
  exact mul_pos (by norm_num [rho_sl]) (Real.rpow_pos_of_pos hbase _)

lemma CDA_pos : 0 < CDA := by
  rw [CDA]
  exact_mod_cast (by norm_num [_calculate_cda] : (0 : ℚ) < _calculate_cda)

lemma terminal_velocity_pos {a : ℝ} (h0 : 0 ≤ a) (h1 : a ≤ 13500) :
    0 < terminal_velocity a := by
  rw [terminal_velocity]
  refine Real.sqrt_pos.mpr (div_pos ?_ (mul_pos (air_density_pos h0 h1) CDA_pos))
  norm_num [weight_slug, weight_lb, g]

lemma air_density_continuousOn : ContinuousOn air_density (Set.Icc (5000 : ℝ) 13500) := by
  show ContinuousOn (fun a : ℝ => rho_sl * (1 - 6.5756e-6 * a) ^ (4.2561 : ℝ)) _
  refine continuousOn_const.mul (ContinuousOn.rpow_const ?_ ?_)
  · exact (continuous_const.sub (continuous_const.mul continuous_id)).continuousOn
  · intro x _
    exact Or.inr (by norm_num)

lemma terminal_velocity_continuousOn :
    ContinuousOn terminal_velocity (Set.Icc (5000 : ℝ) 13500) := by
  show ContinuousOn
    (fun a : ℝ => Real.sqrt ((2 * weight_slug * g) / (air_density a * CDA))) _
  refine Real.continuous_sqrt.comp_continuousOn
    (ContinuousOn.div continuousOn_const (air_density_continuousOn.mul continuousOn_const) ?_)
  intro x hx
  exact ne_of_gt (mul_pos (air_density_pos (le_trans (by norm_num) hx.1) hx.2) CDA_pos)

lemma ffTime_pos : 0 < ffTime := by
  rw [ffTime]
  have hcont : ContinuousOn (fun a => time_rate a) (Set.uIcc (5000 : ℝ) 13500) := by
    rw [Set.uIcc_of_le (by norm_num : (5000 : ℝ) ≤ 13500)]
    show ContinuousOn (fun a => 1 / terminal_velocity a) _
    refine ContinuousOn.div continuousOn_const terminal_velocity_continuousOn ?_
    intro x hx
    exact ne_of_gt (terminal_velocity_pos (le_trans (by norm_num) hx.1) hx.2)
  refine intervalIntegral.intervalIntegral_pos_of_pos_on hcont.intervalIntegrable ?_ (by norm_num)
  intro x hx
  exact one_div_pos.mpr
    (terminal_velocity_pos (le_trans (by norm_num) hx.1.le) hx.2.le)

lemma sortByAlt_exProfile : sortByAlt exProfile = exProfile := by
  norm_num [sortByAlt, exProfile, List.insertionSort, List.orderedInsert]

lemma altList_exProfile : altList exProfile = [0, 15000] := by
  rw [altList, sortByAlt_exProfile]
  rfl

lemma rad90 : (90 : ℝ) * Real.pi / 180 = Real.pi / 2 := by ring

lemma eastList_exProfile : eastList exProfile = [10, 10] := by
  rw [eastList, sortByAlt_exProfile]
  show [10 * Real.sin ((90 : ℝ) * Real.pi / 180), 10 * Real.sin ((90 : ℝ) * Real.pi / 180)]
    = [10, 10]
  rw [rad90, Real.sin_pi_div_two]
  norm_num

lemma northList_exProfile : northList exProfile = [0, 0] := by
  rw [northList, sortByAlt_exProfile]
  show [10 * Real.cos ((90 : ℝ) * Real.pi / 180), 10 * Real.cos ((90 : ℝ) * Real.pi / 180)]
    = [0, 0]
  rw [rad90, Real.cos_pi_div_two]
  norm_num

lemma wind_east_func_exProfile (a : ℝ) : wind_east_func exProfile a = 10 := by
  rw [wind_east_func, altList_exProfile, eastList_exProfile]
  show (if 4 ≤ ([(0 : ℝ), 15000]).length ∧ ([(0 : ℝ), 15000]).Chain' (· < ·)
      then splineEval [0, 15000] [10, 10] a else linterp [0, 15000] [10, 10] a) = 10
  rw [if_neg (by simp)]
  rw [linterp, if_pos (Or.inr rfl)]
  norm_num

lemma wind_north_func_exProfile (a : ℝ) : wind_north_func exProfile a = 0 := by
  rw [wind_north_func, altList_exProfile, northList_exProfile]
  show (if 4 ≤ ([(0 : ℝ), 15000]).length ∧ ([(0 : ℝ), 15000]).Chain' (· < ·)
      then splineEval [0, 15000] [0, 0] a else linterp [0, 15000] [0, 0] a) = 0
  rw [if_neg (by simp)]
  rw [linterp, if_pos (Or.inr rfl)]
  norm_num

lemma ffDriftEast_exProfile_neg : ffDriftEast exProfile < 0 := by
  have heq : ffDriftEast exProfile = -(10 * 5280 / 3600 * ffTime) := by
    rw [ffDriftEast, ffTime, ← intervalIntegral.integral_const_mul,
      ← intervalIntegral.integral_neg]
    refine intervalIntegral.integral_congr (fun a _ => ?_)
    rw [drift_rate_east, wind_east_func_exProfile, time_rate, div_neg, ← mul_one_div]
  rw [heq]
  have hpos : (0 : ℝ) < 10 * 5280 / 3600 * ffTime :=
    mul_pos (by norm_num) ffTime_pos
  linarith

lemma ffDriftNorth_exProfile : ffDriftNorth exProfile = 0 := by
  have hz : ∀ a : ℝ, drift_rate_north exProfile a = 0 := by
    intro a
    rw [drift_rate_north, wind_north_func_exProfile]
    norm_num
  simp only [ffDriftNorth, hz, intervalIntegral.integral_zero]

lemma canopyDriftEast_exProfile {r_fps : ℝ} (h : 0 < r_fps) :
    canopyDriftEast exProfile r_fps < 0 := by
  have heq : canopyDriftEast exProfile r_fps = 5000 * (10 * 5280 / 3600 / (-r_fps)) := by
    rw [canopyDriftEast]
    have hfun : (fun a : ℝ => (wind_east_func exProfile a * 5280 / 3600) / (-r_fps))
        = fun _ : ℝ => (10 * 5280 / 3600 : ℝ) / (-r_fps) := by
      funext a
      rw [wind_east_func_exProfile]
    rw [hfun, intervalIntegral.integral_const]
    norm_num
  rw [heq]
  have hneg : (10 * 5280 / 3600 : ℝ) / (-r_fps) < 0 :=
    div_neg_of_pos_of_neg (by norm_num) (by linarith)
  nlinarith

lemma canopyDriftNorth_exProfile (r_fps : ℝ) : canopyDriftNorth exProfile r_fps = 0 := by
  have hz : ∀ a : ℝ, (wind_north_func exProfile a * 5280 / 3600) / (-r_fps) = 0 := by
    intro a
    rw [wind_north_func_exProfile]
    norm_num
  simp only [canopyDriftNorth, hz, intervalIntegral.integral_zero]

/-- Bearing computation of the sources: a drift vector pointing due west
(negative east component, zero north component) has compass bearing 270°. -/
lemma direction_of_neg_east {e : ℝ} (he : e < 0) :
    fmod (degrees (arctan2 e 0)) 360 = 270 := by
  have harg : arctan2 e 0 = -(Real.pi / 2) :=
    Complex.arg_eq_neg_pi_div_two_iff.mpr ⟨rfl, he⟩
  rw [harg]
  have hdeg : degrees (-(Real.pi / 2)) = -90 := by
    rw [degrees, div_eq_iff Real.pi_ne_zero]
    ring
  rw [hdeg, fmod]
  have hfloor : ⌊(-90 : ℝ) / 360⌋ = -1 := by
    rw [Int.floor_eq_iff]
    constructor <;> norm_num
  rw [hfloor]
  norm_num

/-- C2: for the two-sample profile `{(0 ft, 10 mph, 90°), (15000 ft, 10 mph,
90°)}` (constant wind from due east) and any positive canopy descent rate,
both phases report negative eastward drift and exactly zero northward drift,
and the combined drift direction `atan2(east, north) mod 360` is exactly
270°, the reciprocal bearing of the wind. -/
theorem c2_end_to_end (r : ℝ) (hr : 0 < r) :
    ∃ ff c tot,
      calculate_FF_drift exProfile = .ok ff ∧
      calculate_canopy_drift exProfile r = .ok c ∧
      calculate_total_drift exProfile r = .ok tot ∧
      ff.total_drift_east_feet < 0 ∧ ff.total_drift_north_feet = 0 ∧
      c.total_drift_east_feet < 0 ∧ c.total_drift_north_feet = 0 ∧
      tot.total_drift_direction_degrees = 270 := by
  have hrfps : 0 < r * 5280 / 3600 := div_pos (mul_pos hr (by norm_num)) (by norm_num)
  have hff := FF_ok exProfile (by simp [exProfile])
  have hc := canopy_ok exProfile r (by simp [exProfile]) (ne_of_gt hrfps)
  obtain ⟨tot, htot, hdir⟩ : ∃ tot, calculate_total_drift exProfile r = .ok tot ∧
      tot.total_drift_direction_degrees =
        fmod (degrees (arctan2
          (ffDriftEast exProfile + canopyDriftEast exProfile (r * 5280 / 3600))
          (ffDriftNorth exProfile + canopyDriftNorth exProfile (r * 5280 / 3600)))) 360 := by
    rw [calculate_total_drift, hff, hc]
    exact ⟨_, rfl, rfl⟩
  refine ⟨_, _, tot, hff, hc, htot, ffDriftEast_exProfile_neg, ffDriftNorth_exProfile,
    canopyDriftEast_exProfile hrfps, canopyDriftNorth_exProfile _, ?_⟩
  rw [hdir, ffDriftNorth_exProfile, canopyDriftNorth_exProfile, add_zero]
  have hsum : ffDriftEast exProfile + canopyDriftEast exProfile (r * 5280 / 3600) < 0 := by
    have h1 := ffDriftEast_exProfile_neg
    have h2 := canopyDriftEast_exProfile hrfps
    linarith
  exact direction_of_neg_east hsum

/-- C2 witness: the end-to-end property at the web backend's default canopy
descent rate of 8.5 mph. -/
theorem c2_end_to_end_witness :
    ∃ ff c tot,
      calculate_FF_drift exProfile = .ok ff ∧
      calculate_canopy_drift exProfile 8.5 = .ok c ∧
      calculate_total_drift exProfile 8.5 = .ok tot ∧
      ff.total_drift_east_feet < 0 ∧ ff.total_drift_north_feet = 0 ∧
      c.total_drift_east_feet < 0 ∧ c.total_drift_north_feet = 0 ∧
      tot.total_drift_direction_degrees = 270 :=
  c2_end_to_end 8.5 (by norm_num)

/-! ### Claim C9 -/

/-- C9: `feet_to_lat_long_offset` returns the degree offsets
`(north/364000, east/(364000·cos(target_lat)))` (latitude in radians inside
the cosine, as in the source), and the exit coordinate of
`backendforweb.calculate_jump` is the target minus this offset in both
components. -/
theorem c9_exit_point (east_feet north_feet target_lat target_lon : ℝ) :
    feet_to_lat_long_offset east_feet north_feet target_lat
        = (north_feet / 364000,
           east_feet / (364000 * Real.cos (target_lat * Real.pi / 180))) ∧
      ideal_exit_point target_lat target_lon east_feet north_feet
        = (target_lat - north_feet / 364000,
           target_lon - east_feet / (364000 * Real.cos (target_lat * Real.pi / 180))) :=
  ⟨rfl, rfl⟩

/-! ### Claim C10 -/

/-- C10: in the state-passing model of the three drift functions, the
caller's DataFrame comes back unchanged — the source copies the input before
sorting and adding component columns — and the result computed from the
threaded state equals the pure computation, so one profile value serves both
phases and repeated invocations. -/
theorem c10_input_unchanged (winds_df : List WindSample) (r : ℝ) :
    (calculate_FF_drift_frame winds_df).2 = winds_df ∧
      (calculate_canopy_drift_frame winds_df r).2 = winds_df ∧
      (calculate_total_drift_frame winds_df r).2 = winds_df ∧
      (calculate_FF_drift_frame winds_df).1 = calculate_FF_drift winds_df ∧
      (calculate_canopy_drift_frame winds_df r).1 = calculate_canopy_drift winds_df r ∧
      (calculate_total_drift_frame winds_df r).1 = calculate_total_drift winds_df r :=
  ⟨rfl, rfl, rfl, rfl, rfl, rfl⟩

end
